import Mathlib

/-!
Verification development for the MoneyMind import pipeline.

Shallow embedding of `src/database/csv_parser.py` and
`src/database/data_importer.py`.  Python strings are modelled as Lean
`String`s (operated on through their character lists), `decimal.Decimal`
values as exact scaled integers, and the SQLite `expenses` / `import_sources` tables as
Lean lists carried in an explicit state record.  Exceptions that escape
a function are modelled with explicit outcome constructors; exceptions
that are caught and turned into a sentinel value (e.g. `None`) are
modelled as `Option`.

Modelling notes, stated once here:
* CSV field splitting is modelled as splitting a line on `','`; none of
  the inputs considered contain quoted fields, so Python's `csv` module
  agrees with this on every input appearing below.
* `decimal.Decimal(str)` is modelled for plain decimal literals
  (optional sign, digits, optional fraction part); the exotic accepted
  forms (exponents, `NaN`, `Infinity`) never occur in amount columns and
  are treated as parse failures, exactly as the surrounding code treats
  any `InvalidOperation`.
* Text encodings are abstracted away: the file is a decoded list of
  lines, identical under every attempted encoding.
-/

/-- Python's `\s` character class restricted to ASCII, which covers every
whitespace character occurring in the modelled inputs. -/
def pyWs (c : Char) : Bool :=
  c == ' ' || c == '\t' || c == '\n' || c == '\r' || c == Char.ofNat 11 || c == Char.ofNat 12

/-- Python `str.strip()` on a character list. -/
def pyStripList (l : List Char) : List Char :=
  ((l.dropWhile pyWs).reverse.dropWhile pyWs).reverse

/-- Python `str.strip()`. -/
def pyStrip (s : String) : String :=
  String.mk (pyStripList s.data)

/-- Python `str.lstrip('﻿')` (BOM removal on a header line). -/
def stripBom (s : String) : String :=
  String.mk (s.data.dropWhile fun c => c == Char.ofNat 0xfeff)

/-- Split a character list on a single separator character, keeping empty
fields, as Python `str.split(sep)` / the `csv` reader do for unquoted
rows. -/
def splitOnChar (sep : Char) : List Char → List (List Char)
  | [] => [[]]
  | c :: rest =>
    let r := splitOnChar sep rest
    if c == sep then [] :: r
    else match r with
      | [] => [[c]]
      | g :: gs => (c :: g) :: gs

/-- Split a string into comma-separated raw fields. -/
def splitFields (line : String) : List String :=
  (splitOnChar ',' line.data).map String.mk

/-- One step bound for the substring scanners below (they consume at least
one character of the subject per step). -/
def removeAllSubAux (pat : List Char) : Nat → List Char → List Char
  | 0, l => l
  | _ + 1, [] => []
  | fuel + 1, c :: rest =>
    if pat ≠ [] ∧ pat.isPrefixOf (c :: rest) then
      removeAllSubAux pat fuel ((c :: rest).drop pat.length)
    else
      c :: removeAllSubAux pat fuel rest

/-- Python `str.replace(pat, "")` for a non-empty pattern: remove all
non-overlapping occurrences, scanning left to right.  An empty pattern is
the identity, as `s.replace("", "")` is in Python. -/
def removeAllSub (pat : String) (s : String) : String :=
  if pat = "" then s
  else String.mk (removeAllSubAux pat.data s.data.length s.data)

/-- Python `re.sub(r"^(P)+", "", s)` for a literal pattern `P`: greedily
drop leading copies of `P`. -/
def stripRepeatedPrefixAux (pat : List Char) : Nat → List Char → List Char
  | 0, l => l
  | fuel + 1, l =>
    if pat ≠ [] ∧ pat.isPrefixOf l then
      stripRepeatedPrefixAux pat fuel (l.drop pat.length)
    else l

/-- Remove all leading repetitions of a literal prefix pattern. -/
def stripRepeatedPrefix (pat : String) (s : String) : String :=
  String.mk (stripRepeatedPrefixAux pat.data s.data.length s.data)

/-- Substring occurrence test on character lists. -/
def containsSubList (sub : List Char) : List Char → Bool
  | [] => sub.isEmpty
  | c :: rest => sub.isPrefixOf (c :: rest) || containsSubList sub rest

/-- Python `"sub" in s` substring test. -/
def containsSub (s sub : String) : Bool :=
  containsSubList sub.data s.data

/-- Replace every character `from_c` by `to_c`; models Python
`str.replace('/', '-')` for single characters. -/
def replaceChar (fromC toC : Char) (s : String) : String :=
  String.mk (s.data.map fun c => if c == fromC then toC else c)

/-- Value of a digit run, most significant first. -/
def natOfDigits (l : List Char) : Nat :=
  l.foldl (fun n c => 10 * n + (c.toNat - 48)) 0

/-- All characters are ASCII digits and the run is non-empty. -/
def allDigits (l : List Char) : Bool :=
  decide (l ≠ []) && l.all Char.isDigit

/-- A `decimal.Decimal` value: `units` scaled by `10 ^ scale`
(the value is `units / 10 ^ scale`).  Like `Decimal`, this keeps the
exponent — and hence trailing zeros — so that `str()` round-trips, which
is what the storage layer compares (amounts are persisted as
`str(Decimal)` text). -/
structure Dec where
  units : Int
  scale : Nat
deriving DecidableEq, Repr

/-- Numeric value of a decimal, for stating sign/ordering properties. -/
def Dec.val (d : Dec) : ℚ :=
  (d.units : ℚ) / (10 : ℚ) ^ d.scale

/-- `abs()` of a decimal (keeps the exponent, as `Decimal` does). -/
def Dec.abs (d : Dec) : Dec :=
  ⟨|d.units|, d.scale⟩

/-- `decimal.Decimal(str)` for a plain decimal literal: optional sign,
then digits with at most one decimal point and at least one digit.
Returns `none` where the `Decimal` constructor raises `InvalidOperation`. -/
def parseDecimalCore (l : List Char) : Option Dec :=
  let (sign, body) : Int × List Char :=
    match l with
    | '+' :: t => (1, t)
    | '-' :: t => (-1, t)
    | t => (1, t)
  match splitOnChar '.' body with
  | [intPart] =>
    if allDigits intPart then some ⟨sign * (natOfDigits intPart : Int), 0⟩ else none
  | [intPart, fracPart] =>
    if (intPart ++ fracPart).all Char.isDigit ∧ (intPart ≠ [] ∨ fracPart ≠ []) then
      some ⟨sign * (natOfDigits (intPart ++ fracPart) : Int), fracPart.length⟩
    else none
  | _ => none

/-- `csv_parser._clean_amount`: removes the currency symbol, strips the
result and converts it to a positive (absolute-valued) `Decimal`;
`None` on an empty input or a failed conversion. -/
def _clean_amount (amount_str : String) (currency_symbol : String) : Option Dec :=
  if amount_str = "" then none
  else
    let cleaned_str := pyStrip (removeAllSub currency_symbol amount_str)
    (parseDecimalCore cleaned_str.data).map Dec.abs

/-- Leap-year test used by `datetime`'s calendar validation. -/
def isLeap (y : Nat) : Bool :=
  decide ((y % 4 = 0 ∧ y % 100 ≠ 0) ∨ y % 400 = 0)

/-- Length of a month, as `datetime.strptime` validates it. -/
def daysInMonth (y m : Nat) : Nat :=
  if m = 2 then (if isLeap y then 29 else 28)
  else if m = 4 ∨ m = 6 ∨ m = 9 ∨ m = 11 then 30
  else 31

/-- A `%Y`/`%m`/`%d`-style numeric field: non-empty digit run of bounded
width (`strptime` accepts 1 to `w` digits). -/
def numField (w : Nat) (s : String) : Option Nat :=
  if allDigits s.data ∧ s.data.length ≤ w then some (natOfDigits s.data) else none

/-- Parse the `%Y-%m-%d` date part with calendar validation. -/
def parseDatePart (s : String) : Option (Nat × Nat × Nat) :=
  match (splitOnChar '-' s.data).map String.mk with
  | [ys, ms, ds] =>
    match numField 4 ys, numField 2 ms, numField 2 ds with
    | some y, some m, some d =>
      if 1 ≤ m ∧ m ≤ 12 ∧ 1 ≤ d ∧ d ≤ daysInMonth y m ∧ 1 ≤ y then
        some (y, m, d)
      else none
    | _, _, _ => none
  | _ => none

/-- Parse `%H:%M:%S` or `%H:%M` (seconds default to 0). -/
def parseTimePart (s : String) : Option (Nat × Nat × Nat) :=
  match (splitOnChar ':' s.data).map String.mk with
  | [hs, ms, ss] =>
    match numField 2 hs, numField 2 ms, numField 2 ss with
    | some h, some mi, some sec =>
      if h ≤ 23 ∧ mi ≤ 59 ∧ sec ≤ 61 then some (h, mi, sec) else none
    | _, _, _ => none
  | [hs, ms] =>
    match numField 2 hs, numField 2 ms with
    | some h, some mi => if h ≤ 23 ∧ mi ≤ 59 then some (h, mi, 0) else none
    | _, _ => none
  | _ => none

/-- Zero-pad a number to two digits (`strftime` `%m`, `%d`, `%H`, `%M`, `%S`). -/
def pad2 (n : Nat) : String :=
  if n < 10 then "0" ++ toString n else toString n

/-- Zero-pad a number to four digits (`strftime` `%Y`). -/
def pad4 (n : Nat) : String :=
  if n < 10 then "000" ++ toString n
  else if n < 100 then "00" ++ toString n
  else if n < 1000 then "0" ++ toString n
  else toString n

/-- `csv_parser._parse_datetime`: empty or `/` placeholder gives `None`;
otherwise `/` separators are normalized to `-` and the string must match
`%Y-%m-%d %H:%M:%S` or `%Y-%m-%d %H:%M`; the result is re-rendered as
`YYYY-MM-DD HH:MM:SS`. -/
def _parse_datetime (datetime_str : String) : Option String :=
  if datetime_str = "" ∨ pyStrip datetime_str = "/" then none
  else
    let t := replaceChar '/' '-' datetime_str
    match (splitOnChar ' ' t.data).map String.mk with
    | [dp, tp] =>
      match parseDatePart dp, parseTimePart tp with
      | some (y, m, d), some (h, mi, sec) =>
        some (pad4 y ++ "-" ++ pad2 m ++ "-" ++ pad2 d ++ " " ++
              pad2 h ++ ":" ++ pad2 mi ++ ":" ++ pad2 sec)
      | _, _ => none
    | _ => none

/-- The boilerplate prefix patterns of
`data_importer._generate_cleaned_description` (each Python pattern
`^(P)+` strips leading repetitions of the literal `P`; `re.IGNORECASE`
is vacuous on these caseless literals). -/
def generic_prefixes_to_remove : List String :=
  ["微信支付-", "支付宝-", "付款-", "支付-", "转账给-", "收款方-", "花呗扣款-",
   "花呗-", "余额宝-", "零钱通-", "零钱-", "扫码付款-", "扫码支付-", "消费-",
   "购物消费-", "交易类型：消费，备注：", "交易类型：扫码支付，备注："]

/-- Phase 5 of the cleaner: `re.sub(r"^\s*-\s*", "", s)` — if the string
(after optional leading whitespace) starts with a hyphen, drop the
whitespace, the hyphen and any whitespace following it. -/
def stripLeadingHyphen (s : String) : String :=
  let l := s.data
  match l.dropWhile pyWs with
  | '-' :: rest => String.mk (rest.dropWhile pyWs)
  | _ => s

/-- Phase 5 of the cleaner: `re.sub(r"\s*-\s*$", "", s)`. -/
def stripTrailingHyphen (s : String) : String :=
  let r := s.data.reverse
  match r.dropWhile pyWs with
  | '-' :: rest => String.mk ((rest.dropWhile pyWs).reverse)
  | _ => s

/-- Phase 6 of the cleaner: `re.sub(r"\s+", " ", s)` — collapse each
whitespace run into a single space.  Fueled structural recursion (each
step consumes at least one character, so the subject's length is enough
fuel). -/
def collapseWsAux : Nat → List Char → List Char
  | 0, l => l
  | _ + 1, [] => []
  | fuel + 1, c :: rest =>
    if pyWs c then ' ' :: collapseWsAux fuel (rest.dropWhile pyWs)
    else c :: collapseWsAux fuel rest

/-- Collapse whitespace runs to single spaces. -/
def collapseWs (s : String) : String :=
  String.mk (collapseWsAux s.data.length s.data)

/-- The cleaning pipeline of `_generate_cleaned_description` before its
final empty/minimal-result guard: prefix stripping, noise removal,
separator trimming, whitespace normalization. -/
def cleanPhases (s : String) : String :=
  let c1 := generic_prefixes_to_remove.foldl (fun acc p => stripRepeatedPrefix p acc) s
  let c2 := removeAllSub "付款给" c1
  let c3 := pyStrip c2
  let c4 := stripTrailingHyphen (stripLeadingHyphen c3)
  collapseWs c4 |>.data |> pyStripList |> String.mk

/-- `data_importer._generate_cleaned_description`: clean the raw
description; if cleaning yields the empty string (and the input was not
empty) the original input is returned, while a bare-separator result is
returned as-is.  The `channel` argument is only logged in the source. -/
def _generate_cleaned_description (source_raw_description : String) (channel : String) : String :=
  if source_raw_description = "" then ""
  else
    let cleaned := cleanPhases source_raw_description
    if cleaned = "" ∨ cleaned = "-" ∨ cleaned = "/" then
      if cleaned = "" then source_raw_description else cleaned
    else cleaned

/-- A row of the `import_sources` audit table. -/
structure AuditRecord where
  file_name : String
  source_channel : String
  import_timestamp : String
  records_imported : Nat
  status : String
deriving DecidableEq, Repr

/-- `data_importer._record_import_source`: derives the audit status from
the counters exactly as the Python branch cascade does (including the
final reclassification test, which requires the status to still be the
initial `"Failed"`), and records the possibly-zeroed imported count. -/
def _record_import_source (file_name channel import_timestamp_iso : String)
    (records_imported_count : Nat) (total_records_in_file : Option Nat)
    (parse_errors_count db_insert_errors_count : Nat) : AuditRecord :=
  let st1 : String × Nat :=
    if parse_errors_count > 0 then ("Failed (Parsing)", 0)
    else match total_records_in_file with
      | none => ("Failed (Internal Error)", 0)
      | some total =>
        if total = 0 then
          ((if db_insert_errors_count = 0 then "Success (No Data)"
            else "Failed (DB Error on Empty)"), records_imported_count)
        else if db_insert_errors_count > 0 then
          ((if records_imported_count > 0 then "Partial (DB Errors)"
            else "Failed (DB Errors)"), records_imported_count)
        else if records_imported_count = total then ("Success", records_imported_count)
        else if records_imported_count < total then
          ("Partial (Skipped/Duplicates)", records_imported_count)
        else ("Failed", records_imported_count)
  let status :=
    if st1.1 = "Failed" ∧ st1.2 = 0 ∧ 0 < total_records_in_file.getD 0 ∧
        parse_errors_count = 0 ∧ db_insert_errors_count = 0 then
      "Success (All Duplicates/Skipped)"
    else st1.1
  { file_name := file_name
    source_channel := channel
    import_timestamp := import_timestamp_iso
    records_imported := st1.2
    status := status }

/-- A record dictionary as produced by the CSV parsers (`expense = {...}`
in `parse_wechat_csv` / `parse_alipay_csv`). -/
structure ParsedRecord where
  transaction_time : String
  amount : Dec
  currency : String
  channel : String
  source_raw_description : String
  description_for_ai : String
  notes : String
  external_transaction_id : String
  external_merchant_id : String
  source_payment_method : String
  source_transaction_status : String
  source_provided_category : Option String
  category_l1 : Option String
  category_l2 : Option String
  ai_suggestion_l1 : Option String
  ai_suggestion_l2 : Option String
  is_classified_by_ai : Nat
  is_confirmed_by_user : Nat
  is_hidden : Nat
deriving DecidableEq, Repr

/-- `csv_parser._get_row_value` on a row of a `csv.DictReader`: the row
dictionary is the zip of the (cleaned) field names with the comma-split
values of the line.  A key that is not a field name at all resolves to
the empty default (`header_map.get` yields `''`); a key that is a field
name but has no value because the data line is short yields `none`,
modelling the `AttributeError` on `None.strip()` that makes the caller
skip the row.  Retrieved values are stripped (which also makes the
source's trailing-tab branch unreachable). -/
def _get_row_value (fieldnames : List String) (vals : List String) (key : String) : Option String :=
  if fieldnames.contains key then
    ((fieldnames.zip vals).lookup key).map pyStrip
  else some ""

/-- Counterparty and item concatenated as
`f"{trade_partner} - {item_name}".strip()`, with the bare-separator
fallback `item_name or trade_partner`. -/
def rawDescriptionOf (trade_partner item_name : String) : String :=
  let s := pyStrip (trade_partner ++ " - " ++ item_name)
  if s = "-" then (if item_name ≠ "" then item_name else trade_partner) else s

/-- The per-row body of the `parse_wechat_csv` loop: direction and status
filtering, amount and datetime normalization, field extraction.  Every
failure path (filtered row, unparseable amount/time, short row) yields
`none`, matching the `continue` statements of the source. -/
def wechatRowToExpense (fieldnames : List String) (line : String) : Option ParsedRecord :=
  let vals := splitFields line
  match _get_row_value fieldnames vals "收/支" with
  | none => none
  | some direction =>
  if direction ≠ "支出" then none else
  match _get_row_value fieldnames vals "当前状态" with
  | none => none
  | some status =>
  if status ≠ "支付成功" then none else
  match _get_row_value fieldnames vals "金额(元)", _get_row_value fieldnames vals "交易时间",
        _get_row_value fieldnames vals "交易对方", _get_row_value fieldnames vals "商品",
        _get_row_value fieldnames vals "备注", _get_row_value fieldnames vals "交易单号",
        _get_row_value fieldnames vals "商户单号", _get_row_value fieldnames vals "支付方式" with
  | some amountStr, some timeStr, some trade_partner, some item_name,
    some notes, some extId, some merchantId, some payMethod =>
    match _clean_amount amountStr "元", _parse_datetime timeStr with
    | some amount_val, some parsed_time =>
      some { transaction_time := parsed_time
             amount := amount_val
             currency := "CNY"
             channel := "WeChat Pay"
             source_raw_description := rawDescriptionOf trade_partner item_name
             description_for_ai := rawDescriptionOf trade_partner item_name
             notes := notes
             external_transaction_id := extId
             external_merchant_id := merchantId
             source_payment_method := payMethod
             source_transaction_status := status
             source_provided_category := none
             category_l1 := none
             category_l2 := none
             ai_suggestion_l1 := none
             ai_suggestion_l2 := none
             is_classified_by_ai := 0
             is_confirmed_by_user := 0
             is_hidden := 0 }
    | _, _ => none
  | _, _, _, _, _, _, _, _ => none

/-- Index of the first line satisfying a predicate. -/
def findHeaderIdx (p : String → Bool) : List String → Option Nat
  | [] => none
  | l :: rest => if p l then some 0 else (findHeaderIdx p rest).map (· + 1)

/-- The WeChat header heuristic: the line mentions both `交易时间` and
`交易对方`. -/
def isWechatHeaderLine (l : String) : Bool :=
  containsSub l "交易时间" && containsSub l "交易对方"

/-- The columns `parse_wechat_csv` refuses to proceed without. -/
def wechatCriticalHeaders : List String :=
  ["交易时间", "金额(元)", "收/支", "当前状态", "交易单号"]

/-- Field names extracted from a header line: BOM removed, line stripped,
comma-split, each token stripped. -/
def headerFieldnames (headerLine : String) : List String :=
  (splitFields (pyStrip (stripBom headerLine))).map pyStrip

/-- Result of running a parser over a file: either the produced record
list, or an exception escaping the parser (`.exc`). -/
inductive ParseOutcome where
  | rows (records : List ParsedRecord)
  | exc
deriving DecidableEq, Repr

/-- `csv_parser.parse_wechat_csv` over the decoded lines of the file.
If no header line is found the source logs an error and returns `[]`.
If a header is found but a critical column is missing, the source
`continue`s past both encodings and then evaluates the never-assigned
`file_content_ready` variable, so a `NameError` escapes: `.exc`. -/
def parse_wechat_csv (lines : List String) : ParseOutcome :=
  match findHeaderIdx isWechatHeaderLine lines with
  | none => ParseOutcome.rows []
  | some i =>
    match lines.drop i with
    | [] => ParseOutcome.rows []   -- unreachable: a found index is in range
    | headerLine :: dataLines =>
      let fieldnames := headerFieldnames headerLine
      if wechatCriticalHeaders.all (fun h => fieldnames.contains h) then
        ParseOutcome.rows (dataLines.filterMap (wechatRowToExpense fieldnames))
      else ParseOutcome.exc

/-- The per-row body of the `parse_alipay_csv` loop. -/
def alipayRowToExpense (fieldnames : List String) (line : String) : Option ParsedRecord :=
  let vals := splitFields line
  match _get_row_value fieldnames vals "收/支" with
  | none => none
  | some direction =>
  if direction ≠ "支出" then none else
  match _get_row_value fieldnames vals "交易状态" with
  | none => none
  | some status_val =>
  if status_val ≠ "交易成功" then none else
  match _get_row_value fieldnames vals "金额", _get_row_value fieldnames vals "交易时间",
        _get_row_value fieldnames vals "交易对方", _get_row_value fieldnames vals "商品说明",
        _get_row_value fieldnames vals "备注", _get_row_value fieldnames vals "交易订单号",
        _get_row_value fieldnames vals "商家订单号", _get_row_value fieldnames vals "收/付款方式",
        _get_row_value fieldnames vals "交易分类" with
  | some amountStr, some timeStr, some trade_partner, some item_name,
    some notes, some extId, some merchantId, some payMethod, some sourceCat =>
    match _clean_amount amountStr "", _parse_datetime timeStr with
    | some amount_val, some parsed_time =>
      some { transaction_time := parsed_time
             amount := amount_val
             currency := "CNY"
             channel := "Alipay"
             source_raw_description := rawDescriptionOf trade_partner item_name
             description_for_ai := rawDescriptionOf trade_partner item_name
             notes := notes
             external_transaction_id := extId
             external_merchant_id := merchantId
             source_payment_method := payMethod
             source_transaction_status := status_val
             source_provided_category := some sourceCat
             category_l1 := none
             category_l2 := none
             ai_suggestion_l1 := none
             ai_suggestion_l2 := none
             is_classified_by_ai := 0
             is_confirmed_by_user := 0
             is_hidden := 0 }
    | _, _ => none
  | _, _, _, _, _, _, _, _, _ => none

/-- An Alipay block delimiter line: `strip()`ped line starts with the
literal run of hyphens used in the source. -/
def isAlipayDelim (l : String) : Bool :=
  "----------------------".data.isPrefixOf (pyStrip l).data

/-- The Alipay fallback header heuristic (`交易号` and `商家订单号`). -/
def isAlipayFallbackHeader (l : String) : Bool :=
  containsSub l "交易号" && containsSub l "商家订单号"

/-- Data-block discovery of `parse_alipay_csv`: the lines strictly
between the first two delimiter lines (to end of file if there is no
second delimiter); if no delimiter exists, from the fallback header line
to end of file; empty if neither is found (which makes the parser return
`[]`, as does a genuinely empty block). -/
def alipayContent (lines : List String) : List String :=
  match findHeaderIdx isAlipayDelim lines with
  | some i =>
    let rest := lines.drop (i + 1)
    match findHeaderIdx isAlipayDelim rest with
    | some j => rest.take j
    | none => rest
  | none =>
    match findHeaderIdx isAlipayFallbackHeader lines with
    | some k => lines.drop k
    | none => []

/-- The columns `parse_alipay_csv` refuses to proceed without. -/
def alipayCoreHeaders : List String :=
  ["交易时间", "金额", "收/支", "交易状态", "交易订单号"]

/-- `csv_parser.parse_alipay_csv`.  Unlike the WeChat parser this one
initializes its `file_content_ready` flag, so every rejection path
(`continue` past both encodings) ends in `return []` rather than an
exception. -/
def parse_alipay_csv (lines : List String) : ParseOutcome :=
  match alipayContent lines with
  | [] => ParseOutcome.rows []
  | headerLine :: dataLines =>
    let cleaned_headers := headerFieldnames headerLine
    if alipayCoreHeaders.all (fun h => cleaned_headers.contains h) then
      ParseOutcome.rows (dataLines.filterMap (alipayRowToExpense cleaned_headers))
    else ParseOutcome.rows []

/-- A persisted row of the `expenses` table, as inserted by
`data_importer._insert_expense`. -/
structure StoredExpense where
  transaction_time : String
  amount : Dec
  currency : String
  channel : String
  source_raw_description : String
  description_for_ai : String
  notes : String
  external_transaction_id : String
  external_merchant_id : String
  source_provided_category : Option String
  source_payment_method : String
  source_transaction_status : String
  is_classified_by_ai : Nat
  is_confirmed_by_user : Nat
  is_hidden : Nat
  imported_at : String
  updated_at : String
  category_l1 : Option String
  category_l2 : Option String
  ai_suggestion_l1 : Option String
  ai_suggestion_l2 : Option String
deriving DecidableEq, Repr

/-- The row value tuple of `_insert_expense` (its `data_tuple`): source
fields are copied, `description_for_ai` is regenerated by the cleaner,
the AI/user flags are hardcoded to `0, 0, 0` and both category pairs to
`NULL`. -/
def insertedRow (parsed_record : ParsedRecord) (channel current_time_iso : String) :
    StoredExpense :=
  { transaction_time := parsed_record.transaction_time
    amount := parsed_record.amount
    currency := parsed_record.currency
    channel := channel
    source_raw_description := parsed_record.source_raw_description
    description_for_ai :=
      _generate_cleaned_description parsed_record.source_raw_description channel
    notes := parsed_record.notes
    external_transaction_id := parsed_record.external_transaction_id
    external_merchant_id := parsed_record.external_merchant_id
    source_provided_category := parsed_record.source_provided_category
    source_payment_method := parsed_record.source_payment_method
    source_transaction_status := parsed_record.source_transaction_status
    is_classified_by_ai := 0
    is_confirmed_by_user := 0
    is_hidden := 0
    imported_at := current_time_iso
    updated_at := current_time_iso
    category_l1 := none
    category_l2 := none
    ai_suggestion_l1 := none
    ai_suggestion_l2 := none }

/-- The compound key comparison of `_check_duplicate`'s `SELECT`:
`channel`, `transaction_time`, `amount`, `external_transaction_id`. -/
def matchesCompoundKey (e : StoredExpense) (parsed_record : ParsedRecord)
    (channel : String) : Bool :=
  decide (e.channel = channel ∧
          e.transaction_time = parsed_record.transaction_time ∧
          e.amount = parsed_record.amount ∧
          e.external_transaction_id = parsed_record.external_transaction_id)

/-- `data_importer._check_duplicate`: query the `expenses` table on the
compound key and report whether a row exists; a `sqlite3.Error` during
the query (modelled by `queryFails`) is caught and answered with
`False`. -/
def _check_duplicate (queryFails : Bool) (expenses : List StoredExpense)
    (parsed_record : ParsedRecord) (channel : String) : Bool :=
  if queryFails then false
  else expenses.any fun e => matchesCompoundKey e parsed_record channel

/-- Result of `data_importer._insert_expense`: `True`, the string
`"duplicate_external_id"`, or `False` (any other `sqlite3.Error` /
`KeyError`; unreachable for well-typed records in this model). -/
inductive InsertResult where
  | ok
  | dupExternalId
  | err
deriving DecidableEq, Repr

/-- The storage-level uniqueness conflict: the schema declares
`external_transaction_id TEXT UNIQUE`, so an insert raises the
uniqueness error exactly when a stored row already carries the same id. -/
def extIdTaken (expenses : List StoredExpense) (parsed_record : ParsedRecord) : Bool :=
  expenses.any fun e =>
    e.external_transaction_id == parsed_record.external_transaction_id

/-- `data_importer._insert_expense`: attempt the `INSERT`; the
uniqueness violation on `external_transaction_id` is caught and turned
into the `"duplicate_external_id"` sentinel, otherwise the row is
appended. -/
def _insert_expense (expenses : List StoredExpense) (parsed_record : ParsedRecord)
    (channel current_time_iso : String) : InsertResult × List StoredExpense :=
  if extIdTaken expenses parsed_record then
    (InsertResult.dupExternalId, expenses)
  else
    (InsertResult.ok, expenses ++ [insertedRow parsed_record channel current_time_iso])

/-- Counters and table state produced by the record loop of
`import_data`. -/
structure LoopOut where
  imported : Nat
  skipped : Nat
  failed : Nat
  expenses : List StoredExpense
deriving Repr

/-- The record loop of `import_data` (its `for record in parsed_records`
body): duplicate pre-check, then insert, classifying the outcome into
`successfully_imported` / `skipped_duplicates` / `insert_errors`.  The
source's pre-insert key/type guards always pass for the well-typed
records the parsers produce.  Storage reads are taken to succeed here
(`_check_duplicate`'s fail-open branch is analysed separately). -/
def importLoop (channel current_time_iso : String) :
    List ParsedRecord → List StoredExpense → LoopOut
  | [], expenses => ⟨0, 0, 0, expenses⟩
  | record :: rest, expenses =>
    if _check_duplicate false expenses record channel then
      let out := importLoop channel current_time_iso rest expenses
      { out with skipped := out.skipped + 1 }
    else
      let ins := _insert_expense expenses record channel current_time_iso
      match ins.1 with
      | InsertResult.ok =>
        let out := importLoop channel current_time_iso rest ins.2
        { out with imported := out.imported + 1 }
      | InsertResult.dupExternalId =>
        let out := importLoop channel current_time_iso rest ins.2
        { out with skipped := out.skipped + 1 }
      | InsertResult.err =>
        let out := importLoop channel current_time_iso rest ins.2
        { out with failed := out.failed + 1 }

/-- The summary dictionary returned by `import_data`. -/
structure Summary where
  total_records_in_file : Nat
  successfully_imported : Nat
  skipped_duplicates : Nat
  parse_errors : Nat
  insert_errors : Nat
  status_message : String
deriving Repr

/-- The database state: the `expenses` table and the `import_sources`
audit table. -/
structure DBState where
  expenses : List StoredExpense
  import_sources : List AuditRecord
deriving Repr

/-- A freshly created database. -/
def emptyDB : DBState := ⟨[], []⟩

/-- Append an audit row to `import_sources`. -/
def addAudit (db : DBState) (a : AuditRecord) : DBState :=
  { db with import_sources := db.import_sources ++ [a] }

/-- Channel dispatch of `import_data` for the two supported channels. -/
def parseForChannel (channel : String) (lines : List String) : ParseOutcome :=
  if channel = "WeChat Pay" then parse_wechat_csv lines else parse_alipay_csv lines

/-- `data_importer.import_data` over the decoded file lines.  The
branches mirror the source: unsupported channel (parse error, audit with
total 0); an exception escaping the parser (caught, parse error, audit
with total `None`); an empty parse result (early return, audit on zero
totals); otherwise the record loop followed by the audit write and
commit.  File-not-found and fatal storage errors during the batch are
not modelled (the file is given as lines; storage operations succeed). -/
def import_data (db : DBState) (lines : List String) (file_base_name channel
    current_time_iso : String) : Summary × DBState :=
  if channel = "WeChat Pay" ∨ channel = "Alipay" then
    match parseForChannel channel lines with
    | ParseOutcome.exc =>
      (⟨0, 0, 0, 1, 0, "Parsing failed"⟩,
       addAudit db (_record_import_source file_base_name channel current_time_iso 0 none 1 0))
    | ParseOutcome.rows [] =>
      (⟨0, 0, 0, 0, 0, "No processable records found or file was empty/fully filtered by parser."⟩,
       addAudit db (_record_import_source file_base_name channel current_time_iso 0 (some 0) 0 0))
    | ParseOutcome.rows (record :: rest) =>
      let parsed_records := record :: rest
      let out := importLoop channel current_time_iso parsed_records db.expenses
      (⟨parsed_records.length, out.imported, out.skipped, 0, out.failed,
        "Import process completed."⟩,
       { expenses := out.expenses
         import_sources := db.import_sources ++
           [_record_import_source file_base_name channel current_time_iso out.imported
             (some parsed_records.length) 0 out.failed] })
  else
    (⟨0, 0, 0, 1, 0, "Unsupported channel"⟩,
     addAudit db (_record_import_source file_base_name channel current_time_iso 0 (some 0) 1 0))

/-- A parsed record is "covered" by a table state when either the
compound-key pre-check or the storage uniqueness constraint would stop
its insertion. -/
def covered (expenses : List StoredExpense) (channel : String) (r : ParsedRecord) : Prop :=
  (∃ e ∈ expenses, matchesCompoundKey e r channel = true) ∨ extIdTaken expenses r = true

/-! ### Concrete inputs used for counterexamples and witnesses -/

/-- A two-data-row WeChat export: a failed payment and a successful one
(preceded by vendor preamble, as real exports are). -/
def wechatTwoRowLines : List String :=
  ["微信支付账单明细列表",
   "----------------------",
   "交易时间,交易类型,交易对方,商品,收/支,金额(元),支付方式,当前状态,交易单号,商户单号,备注",
   "2024-01-06 11:11:11,餐饮美食,咖啡店,拿铁,支出,30.00,微信支付,支付失败,WXFAIL01,MFAIL01,x",
   "2024-01-01 12:30:00,餐饮美食,小吃店,午餐,支出,25.50,微信支付,支付成功,WX001,M001,工作餐"]

/-- The (cleaned) field names of `wechatTwoRowLines`. -/
def wechatSampleFieldnames : List String :=
  ["交易时间", "交易类型", "交易对方", "商品", "收/支", "金额(元)", "支付方式",
   "当前状态", "交易单号", "商户单号", "备注"]

/-- The failed-payment data row of `wechatTwoRowLines`. -/
def wechatFailedRowLine : String :=
  "2024-01-06 11:11:11,餐饮美食,咖啡店,拿铁,支出,30.00,微信支付,支付失败,WXFAIL01,MFAIL01,x"

/-- The parsed record produced by the successful row of
`wechatTwoRowLines`. -/
def sampleParsedRecord : ParsedRecord :=
  { transaction_time := "2024-01-01 12:30:00"
    amount := ⟨2550, 2⟩
    currency := "CNY"
    channel := "WeChat Pay"
    source_raw_description := "小吃店 - 午餐"
    description_for_ai := "小吃店 - 午餐"
    notes := "工作餐"
    external_transaction_id := "WX001"
    external_merchant_id := "M001"
    source_payment_method := "微信支付"
    source_transaction_status := "支付成功"
    source_provided_category := none
    category_l1 := none
    category_l2 := none
    ai_suggestion_l1 := none
    ai_suggestion_l2 := none
    is_classified_by_ai := 0
    is_confirmed_by_user := 0
    is_hidden := 0 }

/-- A stored row that shares `sampleParsedRecord`'s external transaction
id but not its transaction time (so the compound-key pre-check misses it
while the uniqueness constraint fires). -/
def conflictingStoredRow : StoredExpense :=
  { transaction_time := "2023-12-31 00:00:00"
    amount := ⟨2550, 2⟩
    currency := "CNY"
    channel := "WeChat Pay"
    source_raw_description := "小吃店 - 午餐"
    description_for_ai := "小吃店 - 午餐"
    notes := ""
    external_transaction_id := "WX001"
    external_merchant_id := "M001"
    source_provided_category := none
    source_payment_method := "微信支付"
    source_transaction_status := "支付成功"
    is_classified_by_ai := 0
    is_confirmed_by_user := 0
    is_hidden := 0
    imported_at := "T"
    updated_at := "T"
    category_l1 := none
    category_l2 := none
    ai_suggestion_l1 := none
    ai_suggestion_l2 := none }

/-- A default stored row (used only to select elements of concrete
result lists in closed statements). -/
def defaultStored : StoredExpense := conflictingStoredRow

/-- A WeChat file whose lines never contain both header keywords. -/
def noHeaderLines : List String :=
  ["微信支付账单明细列表", "some,data,lines"]

/-! ### Helper lemmas about the embedded operations -/

/-- A decimal with nonnegative units has a nonnegative value. -/
theorem Dec.val_nonneg_of_units (d : Dec) (h : 0 ≤ d.units) : 0 ≤ d.val := by
  unfold Dec.val
  apply div_nonneg
  · exact_mod_cast h
  · positivity

/-- `_clean_amount` only ever returns absolute values. -/
theorem clean_amount_units_nonneg (s sym : String) (d : Dec)
    (h : _clean_amount s sym = some d) : 0 ≤ d.units := by
  unfold _clean_amount at h
  split at h
  · exact absurd h (by simp)
  · obtain ⟨q, _, rfl⟩ := Option.map_eq_some'.mp h
    exact abs_nonneg q.units

/-- The duplicate pre-check (no storage fault) answers `true` exactly
when a stored row matches the compound key. -/
theorem check_duplicate_iff (expenses : List StoredExpense) (r : ParsedRecord)
    (channel : String) :
    _check_duplicate false expenses r channel = true ↔
      ∃ e ∈ expenses, matchesCompoundKey e r channel = true := by
  simp [_check_duplicate, List.any_eq_true]

/-- The uniqueness-conflict test in terms of membership. -/
theorem extIdTaken_iff (expenses : List StoredExpense) (r : ParsedRecord) :
    extIdTaken expenses r = true ↔
      ∃ e ∈ expenses, e.external_transaction_id = r.external_transaction_id := by
  simp [extIdTaken, List.any_eq_true]

theorem importLoop_nil (channel now : String) (expenses : List StoredExpense) :
    importLoop channel now [] expenses = ⟨0, 0, 0, expenses⟩ := rfl

theorem importLoop_cons_dup (channel now : String) (r : ParsedRecord)
    (rest : List ParsedRecord) (expenses : List StoredExpense)
    (hd : _check_duplicate false expenses r channel = true) :
    importLoop channel now (r :: rest) expenses =
      { importLoop channel now rest expenses with
        skipped := (importLoop channel now rest expenses).skipped + 1 } := by
  simp [importLoop, hd]

theorem importLoop_cons_uniqdup (channel now : String) (r : ParsedRecord)
    (rest : List ParsedRecord) (expenses : List StoredExpense)
    (hd : _check_duplicate false expenses r channel = false)
    (hid : extIdTaken expenses r = true) :
    importLoop channel now (r :: rest) expenses =
      { importLoop channel now rest expenses with
        skipped := (importLoop channel now rest expenses).skipped + 1 } := by
  simp [importLoop, hd, _insert_expense, hid]

theorem importLoop_cons_ins (channel now : String) (r : ParsedRecord)
    (rest : List ParsedRecord) (expenses : List StoredExpense)
    (hd : _check_duplicate false expenses r channel = false)
    (hid : extIdTaken expenses r = false) :
    importLoop channel now (r :: rest) expenses =
      { importLoop channel now rest (expenses ++ [insertedRow r channel now]) with
        imported :=
          (importLoop channel now rest (expenses ++ [insertedRow r channel now])).imported + 1 } := by
  simp [importLoop, hd, _insert_expense, hid]

/-- Rows already stored stay stored through the record loop. -/
theorem importLoop_expenses_mono (channel now : String) (records : List ParsedRecord) :
    ∀ (expenses : List StoredExpense) (e : StoredExpense),
      e ∈ expenses → e ∈ (importLoop channel now records expenses).expenses := by
  induction records with
  | nil => intro expenses e he; simpa [importLoop_nil] using he
  | cons r rest ih =>
    intro expenses e he
    by_cases hd : _check_duplicate false expenses r channel = true
    · rw [importLoop_cons_dup channel now r rest expenses hd]
      exact ih expenses e he
    · rw [Bool.not_eq_true] at hd
      by_cases hid : extIdTaken expenses r = true
      · rw [importLoop_cons_uniqdup channel now r rest expenses hd hid]
        exact ih expenses e he
      · rw [Bool.not_eq_true] at hid
        rw [importLoop_cons_ins channel now r rest expenses hd hid]
        exact ih (expenses ++ [insertedRow r channel now]) e (List.mem_append_left _ he)

/-- Every row present after the record loop was either present before or
is the inserted image of one of the processed records. -/
theorem importLoop_expenses_spec (channel now : String) (records : List ParsedRecord) :
    ∀ (expenses : List StoredExpense) (e : StoredExpense),
      e ∈ (importLoop channel now records expenses).expenses →
      e ∈ expenses ∨ ∃ r ∈ records, e = insertedRow r channel now := by
  induction records with
  | nil => intro expenses e he; exact Or.inl (by simpa [importLoop_nil] using he)
  | cons r rest ih =>
    intro expenses e he
    by_cases hd : _check_duplicate false expenses r channel = true
    · rw [importLoop_cons_dup channel now r rest expenses hd] at he
      rcases ih expenses e he with h | ⟨r2, hr2, hre⟩
      · exact Or.inl h
      · exact Or.inr ⟨r2, List.mem_cons_of_mem r hr2, hre⟩
    · rw [Bool.not_eq_true] at hd
      by_cases hid : extIdTaken expenses r = true
      · rw [importLoop_cons_uniqdup channel now r rest expenses hd hid] at he
        rcases ih expenses e he with h | ⟨r2, hr2, hre⟩
        · exact Or.inl h
        · exact Or.inr ⟨r2, List.mem_cons_of_mem r hr2, hre⟩
      · rw [Bool.not_eq_true] at hid
        rw [importLoop_cons_ins channel now r rest expenses hd hid] at he
        rcases ih (expenses ++ [insertedRow r channel now]) e he with h | ⟨r2, hr2, hre⟩
        · rcases List.mem_append.mp h with h2 | h2
          · exact Or.inl h2
          · exact Or.inr ⟨r, List.mem_cons_self r rest, by simpa using h2⟩
        · exact Or.inr ⟨r2, List.mem_cons_of_mem r hr2, hre⟩

/-- Coverage is monotone in the table state along the record loop. -/
theorem covered_mono (channel now : String) (records : List ParsedRecord)
    (expenses : List StoredExpense) (r : ParsedRecord) (h : covered expenses channel r) :
    covered (importLoop channel now records expenses).expenses channel r := by
  rcases h with ⟨e, he, hm⟩ | h
  · exact Or.inl ⟨e, importLoop_expenses_mono channel now records expenses e he, hm⟩
  · obtain ⟨e, he, hm⟩ := (extIdTaken_iff expenses r).mp h
    exact Or.inr ((extIdTaken_iff _ r).mpr
      ⟨e, importLoop_expenses_mono channel now records expenses e he, hm⟩)

/-- The inserted image of a record matches its own compound key. -/
theorem insertedRow_matches (r : ParsedRecord) (channel now : String) :
    matchesCompoundKey (insertedRow r channel now) r channel = true := by
  simp [matchesCompoundKey, insertedRow]

/-- After the record loop runs, every processed record is covered by the
resulting table state. -/
theorem importLoop_covers (channel now : String) (records : List ParsedRecord) :
    ∀ (expenses : List StoredExpense) (r : ParsedRecord), r ∈ records →
      covered (importLoop channel now records expenses).expenses channel r := by
  induction records with
  | nil => intro expenses r hr; cases hr
  | cons r0 rest ih =>
    intro expenses r hr
    by_cases hd : _check_duplicate false expenses r0 channel = true
    · rw [importLoop_cons_dup channel now r0 rest expenses hd]
      rcases List.mem_cons.mp hr with rfl | hr2
      · obtain ⟨e, he, hm⟩ := (check_duplicate_iff expenses r channel).mp hd
        exact covered_mono channel now rest expenses r (Or.inl ⟨e, he, hm⟩)
      · exact ih expenses r hr2
    · rw [Bool.not_eq_true] at hd
      by_cases hid : extIdTaken expenses r0 = true
      · rw [importLoop_cons_uniqdup channel now r0 rest expenses hd hid]
        rcases List.mem_cons.mp hr with rfl | hr2
        · exact covered_mono channel now rest expenses r (Or.inr hid)
        · exact ih expenses r hr2
      · rw [Bool.not_eq_true] at hid
        rw [importLoop_cons_ins channel now r0 rest expenses hd hid]
        rcases List.mem_cons.mp hr with rfl | hr2
        · refine covered_mono channel now rest (expenses ++ [insertedRow r channel now]) r
            (Or.inl ⟨insertedRow r channel now, ?_, insertedRow_matches r channel now⟩)
          exact List.mem_append_right _ (List.mem_singleton.mpr rfl)
        · exact ih (expenses ++ [insertedRow r0 channel now]) r hr2

/-- If every record is already covered by the table state, the loop
imports nothing, skips everything and leaves the table unchanged. -/
theorem importLoop_all_covered (channel now : String) (records : List ParsedRecord) :
    ∀ expenses : List StoredExpense, (∀ r ∈ records, covered expenses channel r) →
      importLoop channel now records expenses = ⟨0, records.length, 0, expenses⟩ := by
  induction records with
  | nil => intro expenses _; simp [importLoop_nil]
  | cons r rest ih =>
    intro expenses hcov
    have hr : covered expenses channel r := hcov r (List.mem_cons_self r rest)
    have hrest : ∀ r2 ∈ rest, covered expenses channel r2 :=
      fun r2 h2 => hcov r2 (List.mem_cons_of_mem r h2)
    by_cases hd : _check_duplicate false expenses r channel = true
    · rw [importLoop_cons_dup channel now r rest expenses hd, ih expenses hrest]
      simp [List.length_cons]
    · rw [Bool.not_eq_true] at hd
      have hid : extIdTaken expenses r = true := by
        rcases hr with ⟨e, he, hm⟩ | h
        · exact absurd ((check_duplicate_iff expenses r channel).mpr ⟨e, he, hm⟩)
            (by simp [hd])
        · exact h
      rw [importLoop_cons_uniqdup channel now r rest expenses hd hid, ih expenses hrest]
      simp [List.length_cons]

/-- Every record a WeChat parse produces carries a nonnegative amount
(the parser stores absolute values). -/
theorem wechatRow_amount_nonneg (fieldnames : List String) (line : String)
    (r : ParsedRecord) (h : wechatRowToExpense fieldnames line = some r) :
    0 ≤ r.amount.units := by
  simp only [wechatRowToExpense] at h
  repeat' split at h
  all_goals try exact Option.noConfusion h
  rw [Option.some.injEq] at h
  subst h
  rename_i heqAmount heqTime
  exact clean_amount_units_nonneg _ _ _ heqAmount

/-- Every record an Alipay parse produces carries a nonnegative amount. -/
theorem alipayRow_amount_nonneg (fieldnames : List String) (line : String)
    (r : ParsedRecord) (h : alipayRowToExpense fieldnames line = some r) :
    0 ≤ r.amount.units := by
  simp only [alipayRowToExpense] at h
  repeat' split at h
  all_goals try exact Option.noConfusion h
  rw [Option.some.injEq] at h
  subst h
  rename_i heqAmount heqTime
  exact clean_amount_units_nonneg _ _ _ heqAmount

theorem parse_wechat_rows_amount_nonneg (lines : List String) (recs : List ParsedRecord)
    (h : parse_wechat_csv lines = ParseOutcome.rows recs) (r : ParsedRecord) (hr : r ∈ recs) :
    0 ≤ r.amount.units := by
  simp only [parse_wechat_csv] at h
  repeat' split at h
  all_goals first
    | exact ParseOutcome.noConfusion h
    | (injection h with h; subst h;
       first
         | cases hr
         | (obtain ⟨l, hl, hrow⟩ := List.mem_filterMap.mp hr
            exact wechatRow_amount_nonneg _ _ _ hrow))

theorem parse_alipay_rows_amount_nonneg (lines : List String) (recs : List ParsedRecord)
    (h : parse_alipay_csv lines = ParseOutcome.rows recs) (r : ParsedRecord) (hr : r ∈ recs) :
    0 ≤ r.amount.units := by
  simp only [parse_alipay_csv] at h
  repeat' split at h
  all_goals first
    | exact ParseOutcome.noConfusion h
    | (injection h with h; subst h;
       first
         | cases hr
         | (obtain ⟨l, hl, hrow⟩ := List.mem_filterMap.mp hr
            exact alipayRow_amount_nonneg _ _ _ hrow))

theorem parseForChannel_rows_amount_nonneg (channel : String) (lines : List String)
    (recs : List ParsedRecord) (h : parseForChannel channel lines = ParseOutcome.rows recs)
    (r : ParsedRecord) (hr : r ∈ recs) : 0 ≤ r.amount.units := by
  unfold parseForChannel at h
  split at h
  · exact parse_wechat_rows_amount_nonneg lines recs h r hr
  · exact parse_alipay_rows_amount_nonneg lines recs h r hr

/-- Every expense row present after an `import_data` call was either
present before the call or is the inserted image of a record produced by
the parser for this channel. -/
theorem import_data_expenses_spec (db : DBState) (lines : List String)
    (file channel now : String) (e : StoredExpense)
    (he : e ∈ (import_data db lines file channel now).2.expenses) :
    e ∈ db.expenses ∨
      ∃ recs r, parseForChannel channel lines = ParseOutcome.rows recs ∧ r ∈ recs ∧
        e = insertedRow r channel now := by
  simp only [import_data] at he
  split at he
  · split at he
    next hpo => exact Or.inl (by simpa [addAudit] using he)
    next hpo => exact Or.inl (by simpa [addAudit] using he)
    next record rest hpo =>
      simp only [] at he
      rcases importLoop_expenses_spec channel now (record :: rest) db.expenses e he with
        h | ⟨r, hr, hre⟩
      · exact Or.inl h
      · exact Or.inr ⟨record :: rest, r, hpo, hr, hre⟩
  · exact Or.inl (by simpa [addAudit] using he)

/-- `findHeaderIdx` finds nothing when no line satisfies the predicate. -/
theorem findHeaderIdx_eq_none (p : String → Bool) (lines : List String)
    (h : ∀ l ∈ lines, p l = false) : findHeaderIdx p lines = none := by
  induction lines with
  | nil => rfl
  | cons l rest ih =>
    have hl : p l = false := h l (List.mem_cons_self l rest)
    have hrest : ∀ l2 ∈ rest, p l2 = false := fun l2 h2 => h l2 (List.mem_cons_of_mem l h2)
    simp [findHeaderIdx, hl, ih hrest]

/-! ### Claim theorems -/

/-- Claim C1 (counterexample): the importer persists the outflow row of
`wechatTwoRowLines` (direction `支出`, raw amount `25.50`) with the
stored amount `25.50` — a strictly positive value, not a negative one as
the claim demands. -/
theorem stored_outflow_amount_positive_counterexample :
    (import_data emptyDB wechatTwoRowLines "wechat.csv" "WeChat Pay" "T0").2.expenses.map
      (fun e => e.amount) = [⟨2550, 2⟩] ∧
    ¬ (Dec.val ⟨2550, 2⟩ < 0) ∧ 0 < Dec.val ⟨2550, 2⟩ := by
  refine ⟨by decide, not_lt.mpr (Dec.val_nonneg_of_units _ (by decide)), ?_⟩
  unfold Dec.val
  norm_num

/-- Claim C1 (amended): every record the importer persists carries a
nonnegative stored amount — `_clean_amount` takes the absolute value and
no sign is ever re-applied, so outflow rows are stored positive, not
negative; outflow polarity is instead encoded by the direction filter. -/
theorem imported_amounts_nonneg (db : DBState) (lines : List String)
    (file channel now : String) (e : StoredExpense)
    (he : e ∈ (import_data db lines file channel now).2.expenses) :
    e ∈ db.expenses ∨ 0 ≤ e.amount.val := by
  rcases import_data_expenses_spec db lines file channel now e he with h | ⟨recs, r, hpo, hr, rfl⟩
  · exact Or.inl h
  · right
    have hr2 := parseForChannel_rows_amount_nonneg channel lines recs hpo r hr
    exact Dec.val_nonneg_of_units _ (by simpa [insertedRow] using hr2)

/-- Claim C1 (witness): the record stored from the sample import has a
nonnegative amount. -/
theorem imported_amounts_nonneg_witness :
    (import_data emptyDB wechatTwoRowLines "wechat.csv" "WeChat Pay" "T0").2.expenses.getD 0
        defaultStored ∈ emptyDB.expenses ∨
      0 ≤ ((import_data emptyDB wechatTwoRowLines "wechat.csv" "WeChat Pay" "T0").2.expenses.getD 0
        defaultStored).amount.val :=
  imported_amounts_nonneg emptyDB wechatTwoRowLines "wechat.csv" "WeChat Pay" "T0" _ (by decide)

/-- Claim C2: importing the same file twice yields, on the second run,
`successfully_imported == 0` and `skipped_duplicates` equal to the first
run's total of eligible rows; in particular, whenever the first run
imported all eligible rows, the second run's skipped count equals the
first run's imported count. -/
theorem reimport_idempotent (db : DBState) (lines : List String)
    (fileName channel t1 t2 : String) :
    (import_data (import_data db lines fileName channel t1).2 lines fileName channel
        t2).1.successfully_imported = 0 ∧
    (import_data (import_data db lines fileName channel t1).2 lines fileName channel
        t2).1.skipped_duplicates =
      (import_data db lines fileName channel t1).1.total_records_in_file ∧
    ((import_data db lines fileName channel t1).1.successfully_imported =
        (import_data db lines fileName channel t1).1.total_records_in_file →
      (import_data (import_data db lines fileName channel t1).2 lines fileName channel
          t2).1.skipped_duplicates =
        (import_data db lines fileName channel t1).1.successfully_imported) := by
  have hmain : (import_data (import_data db lines fileName channel t1).2 lines fileName channel
        t2).1.successfully_imported = 0 ∧
      (import_data (import_data db lines fileName channel t1).2 lines fileName channel
          t2).1.skipped_duplicates =
        (import_data db lines fileName channel t1).1.total_records_in_file := by
    by_cases hch : channel = "WeChat Pay" ∨ channel = "Alipay"
    · cases hpo : parseForChannel channel lines with
      | exc => simp [import_data, hch, hpo]
      | rows recs =>
        cases recs with
        | nil => simp [import_data, hch, hpo]
        | cons r rest =>
          have hcov : ∀ r2 ∈ r :: rest,
              covered (importLoop channel t1 (r :: rest) db.expenses).expenses channel r2 :=
            fun r2 h2 => importLoop_covers channel t1 (r :: rest) db.expenses r2 h2
          have h2 := importLoop_all_covered channel t2 (r :: rest)
            (importLoop channel t1 (r :: rest) db.expenses).expenses hcov
          simp [import_data, hch, hpo, h2]
    · simp [import_data, hch]
  exact ⟨hmain.1, hmain.2, fun himp => hmain.2.trans himp.symm⟩

/-- Claim C2 (witness): re-importing the sample file skips exactly the
one record the first run imported. -/
theorem reimport_idempotent_witness :
    (import_data (import_data emptyDB wechatTwoRowLines "wechat.csv" "WeChat Pay" "T0").2
        wechatTwoRowLines "wechat.csv" "WeChat Pay" "T1").1.skipped_duplicates =
      (import_data emptyDB wechatTwoRowLines "wechat.csv" "WeChat Pay"
        "T0").1.successfully_imported :=
  (reimport_idempotent emptyDB wechatTwoRowLines "wechat.csv" "WeChat Pay" "T0" "T1").2.2
    (by decide)

/-- Claim C3 (counterexample): for a WeChat file with no recognizable
header line, the extractor does not raise any error — it returns the
empty record list — and the import call records the audit status
`"Success (No Data)"` with zero parse errors, not a ParseError. -/
theorem header_not_found_counterexample :
    parse_wechat_csv noHeaderLines = ParseOutcome.rows [] ∧
    (import_data emptyDB noHeaderLines "wechat.csv" "WeChat Pay" "T0").1.parse_errors = 0 ∧
    (import_data emptyDB noHeaderLines "wechat.csv" "WeChat Pay" "T0").2.expenses = [] ∧
    (import_data emptyDB noHeaderLines "wechat.csv" "WeChat Pay" "T0").2.import_sources =
      [⟨"wechat.csv", "WeChat Pay", "T0", 0, "Success (No Data)"⟩] ∧
    ("Success (No Data)" : String) ≠ "Failed (Parsing)" := by decide

/-- Claim C3 (amended): a WeChat file with no recognizable header line is
rejected whole with zero rows, but via an empty record list (no
`HeaderNotFoundError` exists): the audit records `"Success (No Data)"`
with zero parse errors and expense storage is untouched.  Only the
missing-critical-columns case aborts with an escaping exception (an
accidental `NameError`, not a dedicated error type), which the import
call records as `"Failed (Parsing)"`, again without touching storage. -/
theorem header_not_found_behavior (db : DBState) (lines : List String) (file now : String) :
    ((∀ l ∈ lines, isWechatHeaderLine l = false) →
      parse_wechat_csv lines = ParseOutcome.rows [] ∧
      (import_data db lines file "WeChat Pay" now).1.parse_errors = 0 ∧
      (import_data db lines file "WeChat Pay" now).2.expenses = db.expenses ∧
      (import_data db lines file "WeChat Pay" now).2.import_sources =
        db.import_sources ++ [⟨file, "WeChat Pay", now, 0, "Success (No Data)"⟩]) ∧
    (parse_wechat_csv lines = ParseOutcome.exc →
      (import_data db lines file "WeChat Pay" now).1.parse_errors = 1 ∧
      (import_data db lines file "WeChat Pay" now).2.expenses = db.expenses ∧
      (import_data db lines file "WeChat Pay" now).2.import_sources =
        db.import_sources ++ [⟨file, "WeChat Pay", now, 0, "Failed (Parsing)"⟩]) := by
  constructor
  · intro hno
    have hfind := findHeaderIdx_eq_none isWechatHeaderLine lines hno
    have hp : parse_wechat_csv lines = ParseOutcome.rows [] := by
      simp [parse_wechat_csv, hfind]
    refine ⟨hp, ?_, ?_, ?_⟩ <;>
      simp [import_data, parseForChannel, hp, addAudit, _record_import_source]
  · intro hp
    have hp2 : parseForChannel "WeChat Pay" lines = ParseOutcome.exc := by
      simp [parseForChannel, hp]
    refine ⟨?_, ?_, ?_⟩ <;>
      simp [import_data, hp2, addAudit, _record_import_source]

/-- Claim C3 (witness): the amended behavior at the concrete header-less
file. -/
theorem header_not_found_behavior_witness :
    parse_wechat_csv noHeaderLines = ParseOutcome.rows [] ∧
    (import_data emptyDB noHeaderLines "w.csv" "WeChat Pay" "T1").1.parse_errors = 0 ∧
    (import_data emptyDB noHeaderLines "w.csv" "WeChat Pay" "T1").2.expenses =
      emptyDB.expenses ∧
    (import_data emptyDB noHeaderLines "w.csv" "WeChat Pay" "T1").2.import_sources =
      emptyDB.import_sources ++ [⟨"w.csv", "WeChat Pay", "T1", 0, "Success (No Data)"⟩] :=
  (header_not_found_behavior emptyDB noHeaderLines "w.csv" "T1").1 (by decide)

/-- Claim C4: `_clean_amount` only removes the literal `元`, so the
spec's example `"¥1,299.00"` (and the repo's own WeChat test amounts
such as `"¥25.50"`) fail the `Decimal` conversion and the row is
dropped instead of being normalized to `1299.00`; only symbol-free
amounts parse (empty and whitespace-only amounts are dropped, as
claimed). -/
theorem clean_amount_currency_bug :
    _clean_amount "¥1,299.00" "元" = none ∧
    _clean_amount "¥25.50" "元" = none ∧
    _clean_amount " " "元" = none ∧
    _clean_amount "" "元" = none ∧
    _clean_amount "1299.00" "元" = some ⟨129900, 2⟩ := by decide

/-- Claim C5 (counterexample): cleaning `"---"` reduces it to the bare
separator `"-"`, and the cleaner returns that separator — not the
original raw description — contradicting the claim's fallback clause. -/
theorem cleaner_separator_counterexample :
    cleanPhases "---" = "-" ∧
    _generate_cleaned_description "---" "WeChat Pay" = "-" ∧
    ("-" : String) ≠ "---" := by decide

/-- Claim C5 (amended): for every non-empty raw description the cleaner
returns a non-empty string; it returns the original input only when
cleaning reduces it to the empty string, while a bare-separator result
(`"-"` or `"/"`) is returned as that separator. -/
theorem cleaner_preserves_nonempty (s channel : String) (h : s ≠ "") :
    _generate_cleaned_description s channel ≠ "" ∧
    (cleanPhases s = "" → _generate_cleaned_description s channel = s) ∧
    (cleanPhases s = "-" → _generate_cleaned_description s channel = "-") ∧
    (cleanPhases s = "/" → _generate_cleaned_description s channel = "/") := by
  have hd : _generate_cleaned_description s channel =
      (if cleanPhases s = "" ∨ cleanPhases s = "-" ∨ cleanPhases s = "/" then
        if cleanPhases s = "" then s else cleanPhases s
      else cleanPhases s) := by
    unfold _generate_cleaned_description
    rw [if_neg h]
  rw [hd]
  by_cases h1 : cleanPhases s = ""
  · rw [h1]; simp [h]
  · by_cases h2 : cleanPhases s = "-"
    · rw [h2]; simp
    · by_cases h3 : cleanPhases s = "/"
      · rw [h3]; simp
      · simp [h1, h2, h3]

/-- Claim C5 (witness): an input that cleans to the empty string is
returned unchanged, hence non-empty. -/
theorem cleaner_preserves_nonempty_witness :
    _generate_cleaned_description "微信支付-" "WeChat Pay" ≠ "" :=
  (cleaner_preserves_nonempty "微信支付-" "WeChat Pay" (by decide)).1

/-- Claim C6: a run with zero imported rows out of a positive total and
no errors IS labeled `"Partial (Skipped/Duplicates)"` by
`_record_import_source` — the branch cascade reaches the
`imported < total` arm before the dead reclassification test (which
requires the status to still be `"Failed"`), so the intended
`"Success (All Duplicates/Skipped)"` label is unreachable. -/
theorem audit_zero_imported_labeled_partial :
    (_record_import_source "wechat.csv" "WeChat Pay" "T0" 0 (some 2) 0 0).status =
      "Partial (Skipped/Duplicates)" ∧
    (∀ (fileName channel ts : String) (t : Nat), 0 < t →
      (_record_import_source fileName channel ts 0 (some t) 0 0).status =
        "Partial (Skipped/Duplicates)") := by
  refine ⟨by decide, ?_⟩
  intro fileName channel ts t ht
  unfold _record_import_source
  have h2 : ¬ (t = 0) := by omega
  have h3 : ¬ ((0 : Nat) = t) := by omega
  simp [h2, h3, ht]

/-- Claim C6 (witness): the generalized statement at a concrete input. -/
theorem audit_zero_imported_labeled_partial_witness :
    (_record_import_source "alipay.csv" "Alipay" "T9" 0 (some 3) 0 0).status =
      "Partial (Skipped/Duplicates)" :=
  audit_zero_imported_labeled_partial.2 "alipay.csv" "Alipay" "T9" 3 (by decide)

/-- Claim C7: when the duplicate pre-check misses but the storage
uniqueness constraint on `external_transaction_id` fires, the insert
reports `"duplicate_external_id"` and the loop counts the row as a
skipped duplicate — not an insert error — and processes the remaining
rows on the unchanged table. -/
theorem unique_violation_counted_as_duplicate (channel now : String) (r : ParsedRecord)
    (rest : List ParsedRecord) (expenses : List StoredExpense)
    (hd : _check_duplicate false expenses r channel = false)
    (hid : extIdTaken expenses r = true) :
    (_insert_expense expenses r channel now).1 = InsertResult.dupExternalId ∧
    importLoop channel now (r :: rest) expenses =
      { importLoop channel now rest expenses with
        skipped := (importLoop channel now rest expenses).skipped + 1 } := by
  refine ⟨?_, importLoop_cons_uniqdup channel now r rest expenses hd hid⟩
  simp [_insert_expense, hid]

/-- Claim C7 (witness): the sample record collides on id (but not on the
compound key) with the stored row and is counted as skipped. -/
theorem unique_violation_counted_as_duplicate_witness :
    (_insert_expense [conflictingStoredRow] sampleParsedRecord "WeChat Pay" "T1").1 =
      InsertResult.dupExternalId ∧
    importLoop "WeChat Pay" "T1" [sampleParsedRecord] [conflictingStoredRow] =
      { importLoop "WeChat Pay" "T1" [] [conflictingStoredRow] with
        skipped := (importLoop "WeChat Pay" "T1" [] [conflictingStoredRow]).skipped + 1 } :=
  unique_violation_counted_as_duplicate "WeChat Pay" "T1" sampleParsedRecord []
    [conflictingStoredRow] (by decide) (by decide)

/-- Claim C8: the duplicate detector queries storage on the compound key
(channel, transaction_time, amount, external_transaction_id) and returns
a boolean; a storage query failure is answered with `false` (fail-open),
so the record proceeds to the insert attempt. -/
theorem duplicate_check_fail_open (expenses : List StoredExpense) (r : ParsedRecord)
    (channel : String) :
    _check_duplicate true expenses r channel = false ∧
    (_check_duplicate false expenses r channel = true ↔
      ∃ e ∈ expenses, e.channel = channel ∧ e.transaction_time = r.transaction_time ∧
        e.amount = r.amount ∧ e.external_transaction_id = r.external_transaction_id) := by
  refine ⟨rfl, ?_⟩
  rw [check_duplicate_iff]
  simp [matchesCompoundKey]

/-- Claim C8 (witness): with a failing query the stored conflicting row
is not reported as a duplicate. -/
theorem duplicate_check_fail_open_witness :
    _check_duplicate true [conflictingStoredRow] sampleParsedRecord "WeChat Pay" = false :=
  (duplicate_check_fail_open [conflictingStoredRow] sampleParsedRecord "WeChat Pay").1

/-- Claim C9: both extractors silently drop every row whose direction is
not `支出` or whose status is not the platform's success literal; on the
two-row sample file (one failed, one successful payment) only the
successful row is imported, and `total_records_in_file` is 1 — the
post-filter count, not the raw line count. -/
theorem direction_status_filtering :
    (∀ (fieldnames : List String) (line : String),
      (_get_row_value fieldnames (splitFields line) "收/支" ≠ some "支出" ∨
       _get_row_value fieldnames (splitFields line) "当前状态" ≠ some "支付成功") →
      wechatRowToExpense fieldnames line = none) ∧
    (∀ (fieldnames : List String) (line : String),
      (_get_row_value fieldnames (splitFields line) "收/支" ≠ some "支出" ∨
       _get_row_value fieldnames (splitFields line) "交易状态" ≠ some "交易成功") →
      alipayRowToExpense fieldnames line = none) ∧
    (import_data emptyDB wechatTwoRowLines "wechat.csv" "WeChat Pay"
      "T0").1.total_records_in_file = 1 ∧
    (import_data emptyDB wechatTwoRowLines "wechat.csv" "WeChat Pay"
      "T0").1.successfully_imported = 1 ∧
    (import_data emptyDB wechatTwoRowLines "wechat.csv" "WeChat Pay" "T0").2.expenses.map
      (fun e => e.external_transaction_id) = ["WX001"] := by
  refine ⟨?_, ?_, by decide, by decide, by decide⟩
  · intro fieldnames line h
    simp only [wechatRowToExpense]
    cases hdir : _get_row_value fieldnames (splitFields line) "收/支" with
    | none => rfl
    | some dir =>
      by_cases hdv : dir = "支出"
      · subst hdv
        have hst : _get_row_value fieldnames (splitFields line) "当前状态" ≠ some "支付成功" := by
          rcases h with h | h
          · exact absurd hdir h
          · exact h
        simp only [ne_eq, not_true, if_false, ite_false, if_neg]
        cases hst2 : _get_row_value fieldnames (splitFields line) "当前状态" with
        | none => simp
        | some st =>
          have hne : st ≠ "支付成功" := fun he => hst (by rw [hst2, he])
          simp [hne]
      · simp [hdv]
  · intro fieldnames line h
    simp only [alipayRowToExpense]
    cases hdir : _get_row_value fieldnames (splitFields line) "收/支" with
    | none => rfl
    | some dir =>
      by_cases hdv : dir = "支出"
      · subst hdv
        have hst : _get_row_value fieldnames (splitFields line) "交易状态" ≠ some "交易成功" := by
          rcases h with h | h
          · exact absurd hdir h
          · exact h
        simp only [ne_eq, not_true, if_false, ite_false, if_neg]
        cases hst2 : _get_row_value fieldnames (splitFields line) "交易状态" with
        | none => simp
        | some st =>
          have hne : st ≠ "交易成功" := fun he => hst (by rw [hst2, he])
          simp [hne]
      · simp [hdv]

/-- Claim C9 (witness): the failed-payment row of the sample file is
dropped by the status filter. -/
theorem direction_status_filtering_witness :
    wechatRowToExpense wechatSampleFieldnames wechatFailedRowLine = none :=
  direction_status_filtering.1 wechatSampleFieldnames wechatFailedRowLine (Or.inr (by decide))

/-- Claim C10: every record the importer persists starts unclassified
and unconfirmed: the AI/user flags are `0` and both category pairs are
`NULL` — no import path creates a record with a category or a
confirmation flag already set. -/
theorem imported_rows_start_unclassified (db : DBState) (lines : List String)
    (file channel now : String) (e : StoredExpense)
    (he : e ∈ (import_data db lines file channel now).2.expenses) :
    e ∈ db.expenses ∨
      (e.is_classified_by_ai = 0 ∧ e.is_confirmed_by_user = 0 ∧ e.is_hidden = 0 ∧
       e.category_l1 = none ∧ e.category_l2 = none ∧
       e.ai_suggestion_l1 = none ∧ e.ai_suggestion_l2 = none) := by
  rcases import_data_expenses_spec db lines file channel now e he with h | ⟨recs, r, hpo, hr, rfl⟩
  · exact Or.inl h
  · right
    simp [insertedRow]

/-- Claim C10 (witness): the record stored from the sample import starts
unclassified. -/
theorem imported_rows_start_unclassified_witness :
    (import_data emptyDB wechatTwoRowLines "wechat.csv" "WeChat Pay" "T0").2.expenses.getD 0
        defaultStored ∈ emptyDB.expenses ∨
      (((import_data emptyDB wechatTwoRowLines "wechat.csv" "WeChat Pay" "T0").2.expenses.getD 0
          defaultStored).is_classified_by_ai = 0 ∧
       ((import_data emptyDB wechatTwoRowLines "wechat.csv" "WeChat Pay" "T0").2.expenses.getD 0
          defaultStored).is_confirmed_by_user = 0 ∧
       ((import_data emptyDB wechatTwoRowLines "wechat.csv" "WeChat Pay" "T0").2.expenses.getD 0
          defaultStored).is_hidden = 0 ∧
       ((import_data emptyDB wechatTwoRowLines "wechat.csv" "WeChat Pay" "T0").2.expenses.getD 0
          defaultStored).category_l1 = none ∧
       ((import_data emptyDB wechatTwoRowLines "wechat.csv" "WeChat Pay" "T0").2.expenses.getD 0
          defaultStored).category_l2 = none ∧
       ((import_data emptyDB wechatTwoRowLines "wechat.csv" "WeChat Pay" "T0").2.expenses.getD 0
          defaultStored).ai_suggestion_l1 = none ∧
       ((import_data emptyDB wechatTwoRowLines "wechat.csv" "WeChat Pay" "T0").2.expenses.getD 0
          defaultStored).ai_suggestion_l2 = none) :=
  imported_rows_start_unclassified emptyDB wechatTwoRowLines "wechat.csv" "WeChat Pay" "T0" _
    (by decide)
